import Mathlib

/-!
A shallow embedding of `powershap/shap_wrappers/shap_explainer.py`: the
PowerSHAP iteration engine (`ShapExplainer.explain`) together with the four
model-adapter variants (`CatboostExplainer`, `EnsembleExplainer`,
`LinearExplainer`, `DeepLearningExplainer`).

Numeric values are modelled as rationals.  The external collaborators —
numpy's seeded uniform generator, sklearn's `train_test_split`, the float32
cast performed by `astype("float32")`, and the shap attribution backends —
are deterministic parameters of the embedding, supplied through `RunEnv`
and `ShapBackend`.  The engine additionally records a transcript
(`TraceEvent` list) of the calls it makes to those collaborators, so that
statements about "which seed was used where" and "how many models were
fitted" are statements about the transcript.
-/

/-- Python-level failure conditions, distinguishable at the caller.
`assertionError` models a failing `assert`; `valueError` models sklearn's
and pandas' `ValueError`; `nameError` models referencing an unbound local
(the source's `X_train` after a zero-iteration loop); `typeError` models
`set_params` rejecting an unknown parameter; `notImplementedError` models
`raise NotImplementedError`. -/
inductive PyErr where
  | assertionError
  | valueError
  | nameError
  | typeError
  | notImplementedError
  | backendError
deriving DecidableEq, Repr

/-- A raw numeric matrix (row major), as produced by `.values` and by the
shap backends. -/
abbrev Mat := List (List ℚ)

/-- A pandas DataFrame: an ordered collection of named numeric columns over
`nrows` rows. -/
structure DataFrame where
  nrows : ℕ
  cols : List (String × List ℚ)
deriving DecidableEq, Repr, Inhabited

/-- The column names of a DataFrame, in order (`df.columns`). -/
def DataFrame.names (df : DataFrame) : List String :=
  df.cols.map Prod.fst

/-- Column assignment `df[name] = v`: replaces the column if the name is
already present, otherwise appends it at the end. -/
def DataFrame.setColumn (df : DataFrame) (name : String) (v : List ℚ) : DataFrame :=
  if name ∈ df.names then
    { df with cols := df.cols.map (fun c => if c.1 = name then (name, v) else c) }
  else
    { df with cols := df.cols ++ [(name, v)] }

/-- Positional row selection `df.iloc[idx]`: keeps every column, restricted
to the given row indices. -/
def DataFrame.iloc (df : DataFrame) (idx : List ℕ) : DataFrame :=
  { nrows := idx.length
    cols := df.cols.map (fun c => (c.1, idx.map (fun j => c.2.getD j 0))) }

/-- `df.values`: the row-major numeric matrix underlying the frame. -/
def DataFrame.values (df : DataFrame) : Mat :=
  (List.range df.nrows).map (fun r => df.cols.map (fun c => c.2.getD r 0))

/-- `np.mean(m, axis=0)`: the column-wise mean of a row-major matrix. -/
def colMean (m : Mat) : List ℚ :=
  match m with
  | [] => []
  | r :: _ => (List.range r.length).map
      (fun j => ((m.map (fun row => row.getD j 0)).sum) / (m.length : ℚ))

/-- Decidable equality for `Except`, needed to compare recorded call
results in the transcript. -/
instance exceptDecEq {ε α : Type} [DecidableEq ε] [DecidableEq α] :
    DecidableEq (Except ε α)
  | Except.error e, Except.error f => decidable_of_iff (e = f) (by simp)
  | Except.ok x, Except.ok y => decidable_of_iff (x = y) (by simp)
  | Except.error _, Except.ok _ => isFalse (fun h => Except.noConfusion h)
  | Except.ok _, Except.error _ => isFalse (fun h => Except.noConfusion h)

/-- One entry of the engine's call transcript: a call to the seeded uniform
generator, to `train_test_split`, or to the adapter's fit-and-explain. -/
inductive TraceEvent where
  | genUniform (seed : ℕ) (draws : List ℚ)
  | splitCall (n : ℕ) (testSize : ℚ) (seed : ℕ)
      (result : Except PyErr (List ℕ × List ℕ))
  | fitExplain (seed : ℕ) (result : Except PyErr Mat)
deriving DecidableEq, Repr

/-- The deterministic external collaborators of the engine:
`uniform seed n` models `RandomState(seed).uniform(-1, 1, n)`;
`split n testSize seed strat` models
`train_test_split(np.arange(n), test_size=testSize, random_state=seed, stratify=strat)`;
`toFloat32` models the per-entry precision reduction of `astype("float32")`. -/
structure RunEnv where
  uniform : ℕ → ℕ → List ℚ
  split : ℕ → ℚ → ℕ → Option (List ℚ) → Except PyErr (List ℕ × List ℕ)
  toFloat32 : ℚ → ℚ

/-- The adapter capability used by the engine: the subclass-provided
`_fit_get_shap(X_train, Y_train, X_val, Y_val, random_seed)`. -/
abbrev Adapter := Mat → List ℚ → Mat → List ℚ → ℕ → Except PyErr Mat

/-- The body of the source's `for i in tqdm(range(loop_its))` loop, iterated
over the remaining iteration indices.  Carries the working frame `Xc` (the
deep copy of the caller's `X`), the accumulated list `shaps`, the columns of
the most recent `X_train` (`none` while `X_train` is still unbound), and the
transcript so far. -/
def explainGo (env : RunEnv) (fgs : Adapter) (y : List ℚ) (vs : ℚ)
    (strat : Option (List ℚ)) (s0 : ℕ) :
    List ℕ → DataFrame → List (List ℚ) → Option (List String) → List TraceEvent →
    List TraceEvent × Except PyErr (List (List ℚ) × List String)
  | [], _Xc, shaps, lc, evs =>
      (evs, match lc with
            | none => Except.error PyErr.nameError
            | some c => Except.ok (shaps, c))
  | i :: rest, Xc, shaps, _lc, evs =>
      let draws := env.uniform (i + s0) Xc.nrows
      let Xc := Xc.setColumn "random_uniform_feature" draws
      let evs := evs ++ [TraceEvent.genUniform (i + s0) draws]
      let sp := env.split Xc.nrows vs i strat
      let evs := evs ++ [TraceEvent.splitCall Xc.nrows vs i sp]
      match sp with
      | Except.error e => (evs, Except.error e)
      | Except.ok (trainIdx, valIdx) =>
        let Xtrain := Xc.iloc trainIdx
        let Xval := Xc.iloc valIdx
        let Ytrain := trainIdx.map (fun j => y.getD j 0)
        let Yval := valIdx.map (fun j => y.getD j 0)
        let sv := fgs Xtrain.values Ytrain Xval.values Yval (i + s0)
        let evs := evs ++ [TraceEvent.fitExplain (i + s0) sv]
        match sv with
        | Except.error e => (evs, Except.error e)
        | Except.ok m =>
          let row := (colMean (m.map (List.map abs))).map env.toFloat32
          explainGo env fgs y vs strat s0 rest Xc (shaps ++ [row]) (some Xtrain.names) evs

/-- The importance table returned by `explain`: one row per iteration, one
named column per feature (original features plus the synthetic one). -/
structure ImpTable where
  rows : List (List ℚ)
  names : List String
deriving DecidableEq, Repr

/-- `ShapExplainer.explain(X, y, loop_its, val_size, stratify, random_seed_start)`.
The reserved-name `assert` runs first; `X = X.copy(deep=True)` is value
semantics here (the caller's frame is a distinct value); the final
`pd.DataFrame(data=np.array(shaps), columns=X_train.columns.values)` fails
with a `NameError` when the loop ran zero times (unbound `X_train`) and with
a `ValueError` when the row widths do not match the column labels. -/
def explain (env : RunEnv) (fgs : Adapter) (X : DataFrame) (y : List ℚ)
    (loopIts : ℤ) (valSize : ℚ) (strat : Option (List ℚ)) (seedStart : ℕ) :
    List TraceEvent × Except PyErr ImpTable :=
  if "random_uniform_feature" ∈ X.names then
    ([], Except.error PyErr.assertionError)
  else
    match explainGo env fgs y valSize strat seedStart
        (List.range loopIts.toNat) X [] none [] with
    | (evs, Except.error e) => (evs, Except.error e)
    | (evs, Except.ok (shaps, cls)) =>
      if shaps.all (fun r => r.length = cls.length)
      then (evs, Except.ok ⟨shaps, cls⟩)
      else (evs, Except.error PyErr.valueError)

/-- Transcript projection: the seed and draws of each synthetic-feature
generation, in call order. -/
def genInfo : TraceEvent → Option (ℕ × List ℚ)
  | TraceEvent.genUniform s d => some (s, d)
  | _ => none

/-- Transcript projection: the size, test fraction and seed of each
`train_test_split` call, in call order. -/
def splitInfo : TraceEvent → Option (ℕ × ℚ × ℕ)
  | TraceEvent.splitCall n ts s _ => some (n, ts, s)
  | _ => none

/-- Transcript projection: the seed passed to each adapter fit-and-explain
call, in call order. -/
def fitSeedInfo : TraceEvent → Option ℕ
  | TraceEvent.fitExplain s _ => some s
  | _ => none

/-- The synthetic feature columns drawn during a run, in iteration order. -/
def genDraws (tr : List TraceEvent) : List (List ℚ) :=
  tr.filterMap (fun e => (genInfo e).map Prod.snd)

/-- The train/validation splits produced during a run, in iteration order. -/
def splitResults (tr : List TraceEvent) : List (Except PyErr (List ℕ × List ℕ)) :=
  tr.filterMap (fun e =>
    match e with
    | TraceEvent.splitCall _ _ _ r => some r
    | _ => none)

/-- The column names of the working frame after the synthetic column has
been attached once. -/
def namesAfter (df : DataFrame) : List String :=
  if "random_uniform_feature" ∈ df.names then df.names
  else df.names ++ ["random_uniform_feature"]

/-- The iteration loop under explicit object-store semantics, used to state
the frame condition on the caller's DataFrame object.  The store is a list
of live DataFrame objects; `cref` is the reference to the working copy
created by `X.copy(deep=True)`, and every column assignment of the loop is
an in-place update of the object at `cref`. -/
def explainGoMut (env : RunEnv) (fgs : Adapter) (y : List ℚ) (vs : ℚ)
    (strat : Option (List ℚ)) (s0 : ℕ) :
    List ℕ → List DataFrame → ℕ → List (List ℚ) → Option (List String) →
    List DataFrame × Except PyErr (List (List ℚ) × List String)
  | [], store, _cref, shaps, lc =>
      (store, match lc with
              | none => Except.error PyErr.nameError
              | some c => Except.ok (shaps, c))
  | i :: rest, store, cref, shaps, _lc =>
      let Xc := store.getD cref default
      let draws := env.uniform (i + s0) Xc.nrows
      let store := store.set cref (Xc.setColumn "random_uniform_feature" draws)
      let Xc := store.getD cref default
      match env.split Xc.nrows vs i strat with
      | Except.error e => (store, Except.error e)
      | Except.ok (trainIdx, valIdx) =>
        let Xtrain := Xc.iloc trainIdx
        let Xval := Xc.iloc valIdx
        let Ytrain := trainIdx.map (fun j => y.getD j 0)
        let Yval := valIdx.map (fun j => y.getD j 0)
        match fgs Xtrain.values Ytrain Xval.values Yval (i + s0) with
        | Except.error e => (store, Except.error e)
        | Except.ok m =>
          let row := (colMean (m.map (List.map abs))).map env.toFloat32
          explainGoMut env fgs y vs strat s0 rest store cref
            (shaps ++ [row]) (some Xtrain.names)

/-- `ShapExplainer.explain` under explicit object-store semantics.  The
caller's frame lives at `xref`; `X.copy(deep=True)` allocates a fresh
object at the end of the store and the loop mutates only that object. -/
def explainMut (env : RunEnv) (fgs : Adapter) (store : List DataFrame)
    (xref : ℕ) (y : List ℚ) (loopIts : ℤ) (valSize : ℚ)
    (strat : Option (List ℚ)) (seedStart : ℕ) :
    List DataFrame × Except PyErr ImpTable :=
  let X := store.getD xref default
  if "random_uniform_feature" ∈ X.names then
    (store, Except.error PyErr.assertionError)
  else
    let cref := store.length
    let store := store ++ [X]
    match explainGoMut env fgs y valSize strat seedStart
        (List.range loopIts.toNat) store cref [] none with
    | (store, Except.error e) => (store, Except.error e)
    | (store, Except.ok (shaps, cls)) =>
      if shaps.all (fun r => r.length = cls.length)
      then (store, Except.ok ⟨shaps, cls⟩)
      else (store, Except.error PyErr.valueError)

/-- The model families recognised by the four `supports_model` predicates. -/
inductive ModelKind where
  | catBoostRegressor
  | catBoostClassifier
  | forestRegressor
  | forestClassifier
  | gradientBoosting
  | linearClassifier
  | linearModel
  | baseSGD
  | kerasModel
  | torchModule
deriving DecidableEq, Repr

/-- An externally supplied model object, as far as the adapters observe it:
its family, its current randomness parameter, whether `set_params` accepts a
`random_state` keyword, and what it has been fitted on (`none` = unfitted).
A fit record stores the training data together with the optional `eval_set`
handed to the underlying fitting routine. -/
structure MLModel where
  kind : ModelKind
  seedParam : Option ℕ := none
  acceptsRandomState : Bool := true
  fitted : Option (Mat × List ℚ × Option (Mat × List ℚ)) := none
deriving DecidableEq, Repr

instance : Inhabited MLModel := ⟨{ kind := ModelKind.linearModel }⟩

/-- Catboost's `model.copy()`: a fresh object carrying the same state. -/
def MLModel.copy (m : MLModel) : MLModel := m

/-- sklearn's `clone(model)`: a fresh unfitted object with the same
parameters. -/
def sklearnClone (m : MLModel) : MLModel := { m with fitted := none }

/-- `set_params(random_seed=s)` / `set_params(random_state=s)` on a model
that necessarily accepts the parameter. -/
def MLModel.setParamsSeed (m : MLModel) (s : ℕ) : MLModel :=
  { m with seedParam := some s }

/-- `set_params(random_state=s)` on a model that may reject the keyword:
raises when the underlying model exposes no randomness parameter. -/
def MLModel.setParamsTry (m : MLModel) (s : ℕ) : Except PyErr MLModel :=
  if m.acceptsRandomState then Except.ok { m with seedParam := some s }
  else Except.error PyErr.typeError

/-- `model.fit(X, y[, eval_set])`: returns the same object, now fitted on
the given data. -/
def MLModel.fit (m : MLModel) (xtr : Mat) (ytr : List ℚ)
    (ev : Option (Mat × List ℚ)) : MLModel :=
  { m with fitted := some (xtr, ytr, ev) }

/-- The opaque shap attribution backends: `TreeExplainer(...).shap_values`
and `shap.explainers.Linear(model, background).shap_values`. -/
structure ShapBackend where
  treeShap : MLModel → Mat → Mat
  linearShap : MLModel → Mat → Mat → Mat

/-- `CatboostExplainer.supports_model`. -/
def CatboostExplainer.supportsModel (m : MLModel) : Bool :=
  match m.kind with
  | ModelKind.catBoostRegressor => true
  | ModelKind.catBoostClassifier => true
  | _ => false

/-- `EnsembleExplainer.supports_model`. -/
def EnsembleExplainer.supportsModel (m : MLModel) : Bool :=
  match m.kind with
  | ModelKind.forestRegressor => true
  | ModelKind.forestClassifier => true
  | ModelKind.gradientBoosting => true
  | _ => false

/-- `LinearExplainer.supports_model`. -/
def LinearExplainer.supportsModel (m : MLModel) : Bool :=
  match m.kind with
  | ModelKind.linearClassifier => true
  | ModelKind.linearModel => true
  | ModelKind.baseSGD => true
  | _ => false

/-- `DeepLearningExplainer.supports_model`. -/
def DeepLearningExplainer.supportsModel (m : MLModel) : Bool :=
  match m.kind with
  | ModelKind.kerasModel => true
  | ModelKind.torchModule => true
  | _ => false

/-- `CatboostExplainer._fit_get_shap`, under an explicit store of live model
objects: the wrapped template lives at `tref`; `self.model.copy()` allocates
a fresh object, which is reseeded, fitted with an explicit `eval_set`, and
explained with the tree backend. -/
def CatboostExplainer.fitGetShap (B : ShapBackend) (ms : List MLModel)
    (tref : ℕ) (Xtr : Mat) (Ytr : List ℚ) (Xval : Mat) (Yval : List ℚ)
    (seed : ℕ) : List MLModel × Except PyErr Mat :=
  let t := ms.getD tref default
  let pm := ((t.copy).setParamsSeed seed).fit Xtr Ytr (some (Xval, Yval))
  (ms ++ [pm], Except.ok (B.treeShap pm Xval))

/-- `EnsembleExplainer._fit_get_shap`: `clone(self.model)` reseeded, fitted
without an `eval_set`, explained with the tree backend. -/
def EnsembleExplainer.fitGetShap (B : ShapBackend) (ms : List MLModel)
    (tref : ℕ) (Xtr : Mat) (Ytr : List ℚ) (Xval : Mat) (_Yval : List ℚ)
    (seed : ℕ) : List MLModel × Except PyErr Mat :=
  let t := ms.getD tref default
  let pm := ((sklearnClone t).setParamsSeed seed).fit Xtr Ytr none
  (ms ++ [pm], Except.ok (B.treeShap pm Xval))

/-- `LinearExplainer._fit_get_shap`: `clone(self.model)` with
`set_params(random_state=seed)` attempted inside a bare `try/except`; on
failure the seedless clone is used instead.  The fit and the linear
attribution (with `X_train` as background) proceed in either case. -/
def LinearExplainer.fitGetShap (B : ShapBackend) (ms : List MLModel)
    (tref : ℕ) (Xtr : Mat) (Ytr : List ℚ) (Xval : Mat) (_Yval : List ℚ)
    (seed : ℕ) : List MLModel × Except PyErr Mat :=
  let t := ms.getD tref default
  let pm := match (sklearnClone t).setParamsTry seed with
            | Except.ok m => m
            | Except.error _ => sklearnClone t
  let pm := pm.fit Xtr Ytr none
  (ms ++ [pm], Except.ok (B.linearShap pm Xtr Xval))

/-- `DeepLearningExplainer._fit_get_shap`: unconditionally
`raise NotImplementedError` before any model is touched. -/
def DeepLearningExplainer.fitGetShap (_B : ShapBackend) (ms : List MLModel)
    (_tref : ℕ) (_Xtr : Mat) (_Ytr : List ℚ) (_Xval : Mat) (_Yval : List ℚ)
    (_seed : ℕ) : List MLModel × Except PyErr Mat :=
  (ms, Except.error PyErr.notImplementedError)

/-- A concrete deterministic environment used by witnesses and
counterexamples: the uniform generator returns `n` copies of the seed cast
to a rational, the splitter rejects test fractions outside `(0,1)` (as
sklearn's `train_test_split` does) and otherwise puts row `seed % n` in the
training set and row `(seed + 1) % n` in the validation set, and the
float32 cast is exact. -/
def envW : RunEnv where
  uniform := fun s n => List.replicate n ((s : ℚ))
  split := fun n ts s _ =>
    if ts ≤ 0 ∨ 1 ≤ ts then Except.error PyErr.valueError
    else Except.ok ([s % n], [(s + 1) % n])
  toFloat32 := id

/-- A concrete two-row, one-column feature frame. -/
def XW : DataFrame := ⟨2, [("f", [1, 2])]⟩

/-- A concrete frame that already contains the reserved column name. -/
def XBadW : DataFrame := ⟨2, [("random_uniform_feature", [0, 0])]⟩

/-- Concrete labels for the two-row frame. -/
def yW : List ℚ := [0, 1]

/-- A concrete adapter returning the validation matrix unchanged. -/
def fgsW : Adapter := fun _ _ xval _ _ => Except.ok xval

/-- The total function underlying `fgsW`. -/
def FMW : Mat → List ℚ → Mat → List ℚ → ℕ → Mat := fun _ _ xval _ _ => xval

/-- A concrete adapter returning a fixed one-row, two-column attribution
matrix. -/
def fgs2W : Adapter := fun _ _ _ _ _ => Except.ok [[0, 1]]

/-- The total function underlying `fgs2W`. -/
def FM2W : Mat → List ℚ → Mat → List ℚ → ℕ → Mat := fun _ _ _ _ _ => [[0, 1]]

/-- The total splitter underlying `envW` at any test fraction in `(0,1)`. -/
def SPW : ℕ → ℕ → Option (List ℚ) → List ℕ × List ℕ :=
  fun n s _ => ([s % n], [(s + 1) % n])

/-- One half, in constructor form so that kernel reduction of comparisons
against it does not require rational normalisation. -/
def halfW : ℚ := ⟨1, 2, by decide, Nat.coprime_one_left 2⟩

/-- The importance table of a concrete successful run, extracted from the
run itself. -/
def tW : ImpTable :=
  ((explain envW fgs2W XW yW 1 halfW none 0).2).toOption.getD ⟨[], []⟩

lemma setColumn_nrows (df : DataFrame) (nm : String) (v : List ℚ) :
    (df.setColumn nm v).nrows = df.nrows := by
  unfold DataFrame.setColumn
  split <;> rfl

lemma setColumn_names (df : DataFrame) (nm : String) (v : List ℚ) :
    (df.setColumn nm v).names =
      if nm ∈ df.names then df.names else df.names ++ [nm] := by
  unfold DataFrame.setColumn DataFrame.names
  split
  · simp only [if_pos]
    rw [List.map_map]
    apply List.map_congr_left
    intro c _
    by_cases h : c.1 = nm
    · simp [h]
    · simp [h]
  · simp [*]

lemma mem_setColumn_self (df : DataFrame) (nm : String) (v : List ℚ) :
    nm ∈ (df.setColumn nm v).names := by
  rw [setColumn_names]
  split
  · assumption
  · simp

lemma namesAfter_setColumn (df : DataFrame) (v : List ℚ) :
    namesAfter (df.setColumn "random_uniform_feature" v) = namesAfter df := by
  unfold namesAfter
  rw [if_pos (mem_setColumn_self df "random_uniform_feature" v), setColumn_names]

lemma iloc_names (df : DataFrame) (idx : List ℕ) :
    (df.iloc idx).names = df.names := by
  simp only [DataFrame.iloc, DataFrame.names, List.map_map]
  rfl

lemma iloc_names_setColumn_eq_namesAfter (df : DataFrame) (v : List ℚ)
    (idx : List ℕ) :
    ((df.setColumn "random_uniform_feature" v).iloc idx).names = namesAfter df := by
  rw [iloc_names, setColumn_names]
  rfl

lemma colMean_length (r : List ℚ) (t : List (List ℚ)) :
    (colMean (r :: t)).length = r.length := by
  simp [colMean]

lemma getD_map_abs_nonneg (l : List ℚ) (j : ℕ) :
    0 ≤ (l.map abs).getD j 0 := by
  induction l generalizing j with
  | nil => simp
  | cons a t ih =>
    cases j with
    | zero => simp [abs_nonneg]
    | succ k => simpa using ih k

lemma colMean_nonneg (M : Mat) (h : ∀ row ∈ M, ∀ j, 0 ≤ row.getD j 0) :
    ∀ x ∈ colMean M, 0 ≤ x := by
  intro x hx
  cases M with
  | nil => simp [colMean] at hx
  | cons r t =>
    simp only [colMean, List.mem_map, List.mem_range] at hx
    obtain ⟨j, _, rfl⟩ := hx
    apply div_nonneg
    · apply List.sum_nonneg
      intro q hq
      simp only [List.mem_map] at hq
      obtain ⟨row, hrow, rfl⟩ := hq
      exact h row hrow j
    · positivity

lemma colMean_abs_nonneg (m : Mat) :
    ∀ x ∈ colMean (m.map (List.map abs)), 0 ≤ x := by
  apply colMean_nonneg
  intro row hrow j
  simp only [List.mem_map] at hrow
  obtain ⟨row0, _, rfl⟩ := hrow
  exact getD_map_abs_nonneg row0 j

lemma explainGo_seeds (env : RunEnv) (fgs : Adapter) (y : List ℚ) (vs : ℚ)
    (strat : Option (List ℚ)) (s0 : ℕ)
    (SP : ℕ → ℕ → Option (List ℚ) → List ℕ × List ℕ)
    (FM : Mat → List ℚ → Mat → List ℚ → ℕ → Mat)
    (hsp : ∀ n s st, env.split n vs s st = Except.ok (SP n s st))
    (hfm : ∀ a b c d s, fgs a b c d s = Except.ok (FM a b c d s)) :
    ∀ (is : List ℕ) (Xc : DataFrame) (shaps : List (List ℚ))
      (lc : Option (List String)) (evs : List TraceEvent),
      ((explainGo env fgs y vs strat s0 is Xc shaps lc evs).1).filterMap genInfo =
          evs.filterMap genInfo ++
            is.map (fun i => (i + s0, env.uniform (i + s0) Xc.nrows)) ∧
      ((explainGo env fgs y vs strat s0 is Xc shaps lc evs).1).filterMap splitInfo =
          evs.filterMap splitInfo ++ is.map (fun i => (Xc.nrows, vs, i)) ∧
      ((explainGo env fgs y vs strat s0 is Xc shaps lc evs).1).filterMap fitSeedInfo =
          evs.filterMap fitSeedInfo ++ is.map (fun i => i + s0) := by
  intro is
  induction is with
  | nil =>
    intro Xc shaps lc evs
    simp [explainGo]
  | cons i rest ih =>
    intro Xc shaps lc evs
    have hnr := setColumn_nrows Xc "random_uniform_feature"
      (env.uniform (i + s0) Xc.nrows)
    simp only [explainGo, hsp, hfm]
    obtain ⟨h1, h2, h3⟩ := ih
      (Xc.setColumn "random_uniform_feature" (env.uniform (i + s0) Xc.nrows))
      (shaps ++ [(colMean ((FM
          ((Xc.setColumn "random_uniform_feature"
            (env.uniform (i + s0) Xc.nrows)).iloc
              (SP (Xc.setColumn "random_uniform_feature"
                (env.uniform (i + s0) Xc.nrows)).nrows i strat).1).values
          ((SP (Xc.setColumn "random_uniform_feature"
            (env.uniform (i + s0) Xc.nrows)).nrows i strat).1.map
              (fun j => y.getD j 0))
          ((Xc.setColumn "random_uniform_feature"
            (env.uniform (i + s0) Xc.nrows)).iloc
              (SP (Xc.setColumn "random_uniform_feature"
                (env.uniform (i + s0) Xc.nrows)).nrows i strat).2).values
          ((SP (Xc.setColumn "random_uniform_feature"
            (env.uniform (i + s0) Xc.nrows)).nrows i strat).2.map
              (fun j => y.getD j 0))
          (i + s0)).map (List.map abs))).map env.toFloat32])
      (some ((Xc.setColumn "random_uniform_feature"
        (env.uniform (i + s0) Xc.nrows)).iloc
          (SP (Xc.setColumn "random_uniform_feature"
            (env.uniform (i + s0) Xc.nrows)).nrows i strat).1).names)
      (((evs ++ [TraceEvent.genUniform (i + s0) (env.uniform (i + s0) Xc.nrows)]) ++
          [TraceEvent.splitCall
            (Xc.setColumn "random_uniform_feature"
              (env.uniform (i + s0) Xc.nrows)).nrows vs i
            (Except.ok (SP (Xc.setColumn "random_uniform_feature"
              (env.uniform (i + s0) Xc.nrows)).nrows i strat))]) ++
        [TraceEvent.fitExplain (i + s0) (Except.ok (FM
          ((Xc.setColumn "random_uniform_feature"
            (env.uniform (i + s0) Xc.nrows)).iloc
              (SP (Xc.setColumn "random_uniform_feature"
                (env.uniform (i + s0) Xc.nrows)).nrows i strat).1).values
          ((SP (Xc.setColumn "random_uniform_feature"
            (env.uniform (i + s0) Xc.nrows)).nrows i strat).1.map
              (fun j => y.getD j 0))
          ((Xc.setColumn "random_uniform_feature"
            (env.uniform (i + s0) Xc.nrows)).iloc
              (SP (Xc.setColumn "random_uniform_feature"
                (env.uniform (i + s0) Xc.nrows)).nrows i strat).2).values
          ((SP (Xc.setColumn "random_uniform_feature"
            (env.uniform (i + s0) Xc.nrows)).nrows i strat).2.map
              (fun j => y.getD j 0))
          (i + s0)))])
    refine ⟨?_, ?_, ?_⟩
    · rw [h1]
      simp [List.filterMap_append, genInfo, hnr]
    · rw [h2]
      simp [List.filterMap_append, splitInfo, hnr]
    · rw [h3]
      simp [List.filterMap_append, fitSeedInfo]

lemma explainGo_ok (env : RunEnv) (fgs : Adapter) (y : List ℚ) (vs : ℚ)
    (strat : Option (List ℚ)) (s0 : ℕ)
    (SP : ℕ → ℕ → Option (List ℚ) → List ℕ × List ℕ)
    (FM : Mat → List ℚ → Mat → List ℚ → ℕ → Mat)
    (hsp : ∀ n s st, env.split n vs s st = Except.ok (SP n s st))
    (hfm : ∀ a b c d s, fgs a b c d s = Except.ok (FM a b c d s)) :
    ∀ (is : List ℕ) (Xc : DataFrame) (shaps : List (List ℚ))
      (lc : Option (List String)) (evs : List TraceEvent), is ≠ [] →
      ∃ evs2 rows,
        explainGo env fgs y vs strat s0 is Xc shaps lc evs =
          (evs2, Except.ok (shaps ++ rows, namesAfter Xc)) ∧
        rows.length = is.length ∧
        ∀ r ∈ rows, ∃ a b c d s,
          r = (colMean ((FM a b c d s).map (List.map abs))).map env.toFloat32 := by
  intro is
  induction is with
  | nil => intro Xc shaps lc evs h; exact absurd rfl h
  | cons i rest ih =>
    intro Xc shaps lc evs _
    by_cases hr : rest = []
    · subst hr
      simp only [explainGo, hsp, hfm]
      rw [← iloc_names_setColumn_eq_namesAfter Xc (env.uniform (i + s0) Xc.nrows)
        (SP (Xc.setColumn "random_uniform_feature"
          (env.uniform (i + s0) Xc.nrows)).nrows i strat).1]
      exact ⟨_, [_], rfl, rfl, fun r hrm => by
        rw [List.mem_singleton] at hrm
        subst hrm
        exact ⟨_, _, _, _, _, rfl⟩⟩
    · simp only [explainGo, hsp, hfm]
      set Xc2 := Xc.setColumn "random_uniform_feature"
        (env.uniform (i + s0) Xc.nrows) with hXc2
      set p := SP Xc2.nrows i strat with hp
      set row := (colMean ((FM (Xc2.iloc p.1).values
        (p.1.map (fun j => y.getD j 0)) (Xc2.iloc p.2).values
        (p.2.map (fun j => y.getD j 0)) (i + s0)).map (List.map abs))).map
          env.toFloat32 with hrow
      set evs3 := ((evs ++ [TraceEvent.genUniform (i + s0)
          (env.uniform (i + s0) Xc.nrows)]) ++
        [TraceEvent.splitCall Xc2.nrows vs i (Except.ok p)]) ++
        [TraceEvent.fitExplain (i + s0) (Except.ok (FM (Xc2.iloc p.1).values
          (p.1.map (fun j => y.getD j 0)) (Xc2.iloc p.2).values
          (p.2.map (fun j => y.getD j 0)) (i + s0)))] with hevs3
      obtain ⟨evs2, rows2, heq, hlen, hform⟩ :=
        ih Xc2 (shaps ++ [row]) (some (Xc2.iloc p.1).names) evs3 hr
      refine ⟨evs2, row :: rows2, ?_, ?_, ?_⟩
      · rw [heq, hXc2, namesAfter_setColumn]
        simp
      · simp [hlen]
      · intro r hrm
        rcases List.mem_cons.mp hrm with h | h
        · subst h
          exact ⟨_, _, _, _, _, rfl⟩
        · exact hform r h

lemma explainGo_rows (env : RunEnv) (fgs : Adapter) (y : List ℚ) (vs : ℚ)
    (strat : Option (List ℚ)) (s0 : ℕ) :
    ∀ (is : List ℕ) (Xc : DataFrame) (shaps : List (List ℚ))
      (lc : Option (List String)) (evs evs2 : List TraceEvent)
      (rows : List (List ℚ)) (cls : List String),
      explainGo env fgs y vs strat s0 is Xc shaps lc evs =
        (evs2, Except.ok (rows, cls)) →
      (∀ r ∈ shaps, ∃ m : Mat,
        r = (colMean (m.map (List.map abs))).map env.toFloat32) →
      ∀ r ∈ rows, ∃ m : Mat,
        r = (colMean (m.map (List.map abs))).map env.toFloat32 := by
  intro is
  induction is with
  | nil =>
    intro Xc shaps lc evs evs2 rows cls heq hacc
    cases lc with
    | none => simp [explainGo] at heq
    | some c =>
      simp only [explainGo, Prod.mk.injEq, Except.ok.injEq] at heq
      obtain ⟨-, h2, -⟩ := heq
      subst h2
      exact hacc
  | cons i rest ih =>
    intro Xc shaps lc evs evs2 rows cls heq hacc
    simp only [explainGo] at heq
    split at heq
    · simp at heq
    · split at heq
      · simp at heq
      · refine ih _ _ _ _ _ _ _ heq ?_
        intro r hrm
        rcases List.mem_append.mp hrm with h | h
        · exact hacc r h
        · rw [List.mem_singleton] at h
          subst h
          exact ⟨_, rfl⟩

lemma explainGoMut_preserve (env : RunEnv) (fgs : Adapter) (y : List ℚ)
    (vs : ℚ) (strat : Option (List ℚ)) (s0 : ℕ) :
    ∀ (is : List ℕ) (store : List DataFrame) (cref : ℕ)
      (shaps : List (List ℚ)) (lc : Option (List String)) (j : ℕ), j ≠ cref →
      ((explainGoMut env fgs y vs strat s0 is store cref shaps lc).1).get? j =
        store.get? j := by
  intro is
  induction is with
  | nil =>
    intro store cref shaps lc j hj
    simp [explainGoMut]
  | cons i rest ih =>
    intro store cref shaps lc j hj
    have hset : ∀ X : DataFrame, (store.set cref X)[j]? = store[j]? :=
      fun X => List.getElem?_set_ne (fun h => hj h.symm)
    simp only [explainGoMut]
    split
    · simp [hset]
    · split
      · simp [hset]
      · rw [ih _ _ _ _ _ hj]
        simp [List.get?_eq_getElem?, hset]

/-- Claim C4: if the caller's feature matrix already contains a column named
with the reserved identifier "random_uniform_feature", `explain` fails with
the reserved-name assertion before any iteration begins: the transcript is
empty, so in particular zero adapter fit-and-explain calls occur. -/
theorem c4_reserved_name_fails_fast (env : RunEnv) (fgs : Adapter)
    (X : DataFrame) (y : List ℚ) (its : ℤ) (vs : ℚ) (strat : Option (List ℚ))
    (s0 : ℕ) (h : "random_uniform_feature" ∈ X.names) :
    explain env fgs X y its vs strat s0 =
      ([], Except.error PyErr.assertionError) := by
  simp [explain, h]

/-- Witness for C4 at a concrete frame containing the reserved column. -/
theorem c4_witness :
    explain envW fgsW XBadW yW 3 halfW none 0 =
      ([], Except.error PyErr.assertionError) :=
  c4_reserved_name_fails_fast envW fgsW XBadW yW 3 halfW none 0 (by decide)

/-- Claim C7: two runs with identical inputs, identical seed offset, and
extensionally equal deterministic adapters produce identical results
(transcript and importance table). -/
theorem c7_deterministic (env : RunEnv) (f g : Adapter) (X : DataFrame)
    (y : List ℚ) (its : ℤ) (vs : ℚ) (strat : Option (List ℚ)) (s0 : ℕ)
    (h : ∀ a b c d s, f a b c d s = g a b c d s) :
    explain env f X y its vs strat s0 = explain env g X y its vs strat s0 := by
  have hfg : f = g := by
    funext a b c d s
    exact h a b c d s
  rw [hfg]

/-- Witness for C7 at a concrete run. -/
theorem c7_witness :
    explain envW fgsW XW yW 2 halfW none 0 =
      explain envW fgsW XW yW 2 halfW none 0 :=
  c7_deterministic envW fgsW fgsW XW yW 2 halfW none 0 (fun _ _ _ _ _ => rfl)

/-- Claim C8: every adapter variant leaves every pre-existing model object —
in particular the wrapped template — untouched (the store's original prefix
is preserved), and each fitting variant appends exactly one fresh fitted
model derived from the template: a reseeded `copy` fitted with an
`eval_set` for catboost, a reseeded `clone` fitted without one for the
ensemble variant; the linear variant also only appends, and the
deep-learning variant touches nothing. -/
theorem c8_template_never_mutated (B : ShapBackend) (ms : List MLModel)
    (tref : ℕ) (Xtr : Mat) (Ytr : List ℚ) (Xval : Mat) (Yval : List ℚ)
    (seed : ℕ) :
    ((CatboostExplainer.fitGetShap B ms tref Xtr Ytr Xval Yval seed).1.take
        ms.length = ms ∧
      (CatboostExplainer.fitGetShap B ms tref Xtr Ytr Xval Yval seed).1 =
        ms ++ [(((ms.getD tref default).copy).setParamsSeed seed).fit Xtr Ytr
          (some (Xval, Yval))]) ∧
    ((EnsembleExplainer.fitGetShap B ms tref Xtr Ytr Xval Yval seed).1.take
        ms.length = ms ∧
      (EnsembleExplainer.fitGetShap B ms tref Xtr Ytr Xval Yval seed).1 =
        ms ++ [((sklearnClone (ms.getD tref default)).setParamsSeed seed).fit
          Xtr Ytr none]) ∧
    ((LinearExplainer.fitGetShap B ms tref Xtr Ytr Xval Yval seed).1.take
        ms.length = ms ∧
      ((LinearExplainer.fitGetShap B ms tref Xtr Ytr Xval Yval seed).1.getD
        ms.length default).fitted = some (Xtr, Ytr, none)) ∧
    (DeepLearningExplainer.fitGetShap B ms tref Xtr Ytr Xval Yval seed).1 =
      ms := by
  refine ⟨⟨List.take_left ms _, rfl⟩, ⟨List.take_left ms _, rfl⟩,
    ⟨List.take_left ms _, ?_⟩, rfl⟩
  cases h : (ms[tref]?.getD default).acceptsRandomState <;>
    simp [LinearExplainer.fitGetShap, MLModel.setParamsTry, MLModel.fit,
      sklearnClone, MLModel.setParamsSeed, List.getD, h]

/-- Claim C9: the deep-learning adapter's fit-and-explain path fails
unconditionally with the not-implemented condition, a condition distinct
from the data and precondition errors; no model is fitted (the model store
is returned unchanged) and no attribution matrix is produced. -/
theorem c9_deep_learning_unimplemented (B : ShapBackend) (ms : List MLModel)
    (tref : ℕ) (Xtr : Mat) (Ytr : List ℚ) (Xval : Mat) (Yval : List ℚ)
    (seed : ℕ) :
    DeepLearningExplainer.fitGetShap B ms tref Xtr Ytr Xval Yval seed =
      (ms, Except.error PyErr.notImplementedError) ∧
    PyErr.notImplementedError ≠ PyErr.valueError ∧
    PyErr.notImplementedError ≠ PyErr.assertionError :=
  ⟨rfl, by decide, by decide⟩

/-- Claim C10: the linear adapter injects the seed into a clone of the
template exactly when the model accepts a randomness parameter, and falls
back to a seedless clone otherwise; in either case the fit proceeds and the
call succeeds with a linear attribution of the fitted clone. -/
theorem c10_linear_seed_fallback (B : ShapBackend) (ms : List MLModel)
    (tref : ℕ) (Xtr : Mat) (Ytr : List ℚ) (Xval : Mat) (Yval : List ℚ)
    (seed : ℕ) :
    LinearExplainer.fitGetShap B ms tref Xtr Ytr Xval Yval seed =
      (let t := ms.getD tref default
       let pm := (if t.acceptsRandomState then (sklearnClone t).setParamsSeed
                    seed
                  else sklearnClone t).fit Xtr Ytr none
       (ms ++ [pm], Except.ok (B.linearShap pm Xtr Xval))) := by
  cases h : (ms[tref]?.getD default).acceptsRandomState <;>
    simp [LinearExplainer.fitGetShap, MLModel.setParamsTry, sklearnClone,
      MLModel.setParamsSeed, List.getD, h]

/-- Counterexample to C3 as stated: with a validation fraction of 2 (outside
`(0,1)`) the run does fail, but only at iteration 0's split call — after
iteration 0's synthetic feature has already been generated, contradicting
"no synthetic feature is generated". -/
theorem c3_counterexample :
    TraceEvent.genUniform 0 (envW.uniform 0 XW.nrows) ∈
      (explain envW fgsW XW yW 1 2 none 0).1 ∧
    (explain envW fgsW XW yW 1 2 none 0).2 = Except.error PyErr.valueError := by
  constructor <;> decide

/-- Amended C3: with a non-positive iteration count the run performs no
iteration at all (empty transcript: no synthetic feature, no split, no fit)
and fails only at table assembly with the unbound-`X_train` error; with a
validation fraction outside `(0,1)` (rejected by the splitter) the run
fails at iteration 0's split call with a `ValueError`, after generating
iteration 0's synthetic feature but before any adapter fit call. -/
theorem c3_amended_precondition_failures (env : RunEnv) (fgs : Adapter)
    (X : DataFrame) (y : List ℚ) (its : ℤ) (vs : ℚ) (strat : Option (List ℚ))
    (s0 : ℕ) (hname : "random_uniform_feature" ∉ X.names) :
    (its ≤ 0 →
      explain env fgs X y its vs strat s0 =
        ([], Except.error PyErr.nameError)) ∧
    (0 < its → (vs ≤ 0 ∨ 1 ≤ vs) →
      env.split X.nrows vs 0 strat = Except.error PyErr.valueError →
      explain env fgs X y its vs strat s0 =
        ([TraceEvent.genUniform s0 (env.uniform s0 X.nrows),
          TraceEvent.splitCall X.nrows vs 0 (Except.error PyErr.valueError)],
         Except.error PyErr.valueError)) := by
  constructor
  · intro hits
    have h0 : its.toNat = 0 := by omega
    simp [explain, hname, h0, explainGo]
  · intro hits _ hsplit
    obtain ⟨k, hk⟩ : ∃ k, its.toNat = k + 1 := ⟨its.toNat - 1, by omega⟩
    simp [explain, hname, hk, List.range_succ_eq_map, explainGo,
      setColumn_nrows, hsplit]

/-- Witness for the amended C3, at a run with `loop_its = -1` (first part)
and at a run with `val_size = 2` (second part). -/
theorem c3_amended_witness :
    explain envW fgsW XW yW (-1) halfW none 0 =
      ([], Except.error PyErr.nameError) ∧
    explain envW fgsW XW yW 1 2 none 5 =
      ([TraceEvent.genUniform 5 (envW.uniform 5 XW.nrows),
        TraceEvent.splitCall XW.nrows 2 0 (Except.error PyErr.valueError)],
       Except.error PyErr.valueError) :=
  ⟨(c3_amended_precondition_failures envW fgsW XW yW (-1) halfW none 0
      (by decide)).1 (by decide),
   (c3_amended_precondition_failures envW fgsW XW yW 1 2 none 5
      (by decide)).2 (by decide) (Or.inr (by decide)) (by decide)⟩

/-- Counterexample to C1 as stated: over the concrete environment `envW`,
shifting `seed_start` from 0 to 1 gives iteration 0 of the shifted run the
same synthetic feature column as iteration 1 of the original run, but a
different train/validation split — because the source seeds
`train_test_split` with `random_state=i`, not `i + random_seed_start`. -/
theorem c1_counterexample :
    (genDraws (explain envW fgsW XW yW 2 halfW none 1).1).getD 0 [] =
      (genDraws (explain envW fgsW XW yW 2 halfW none 0).1).getD 1 [] ∧
    (splitResults (explain envW fgsW XW yW 2 halfW none 1).1).getD 0
        (Except.error PyErr.valueError) ≠
      (splitResults (explain envW fgsW XW yW 2 halfW none 0).1).getD 1
        (Except.error PyErr.valueError) := by
  constructor <;> decide

/-- Amended C1: in every run whose splitter and adapter calls all succeed,
iteration `i` uses the effective seed `i + seed_start` for generating the
synthetic feature's values and for the seed passed to the adapter's
fit-and-explain, but the train/validation split is seeded with `i` alone,
independent of `seed_start`. -/
theorem c1_amended_seed_usage (env : RunEnv) (fgs : Adapter) (X : DataFrame)
    (y : List ℚ) (its : ℤ) (vs : ℚ) (strat : Option (List ℚ)) (s0 : ℕ)
    (SP : ℕ → ℕ → Option (List ℚ) → List ℕ × List ℕ)
    (FM : Mat → List ℚ → Mat → List ℚ → ℕ → Mat)
    (hsp : ∀ n s st, env.split n vs s st = Except.ok (SP n s st))
    (hfm : ∀ a b c d s, fgs a b c d s = Except.ok (FM a b c d s))
    (hname : "random_uniform_feature" ∉ X.names) :
    ((explain env fgs X y its vs strat s0).1).filterMap genInfo =
      (List.range its.toNat).map
        (fun i => (i + s0, env.uniform (i + s0) X.nrows)) ∧
    ((explain env fgs X y its vs strat s0).1).filterMap splitInfo =
      (List.range its.toNat).map (fun i => (X.nrows, vs, i)) ∧
    ((explain env fgs X y its vs strat s0).1).filterMap fitSeedInfo =
      (List.range its.toNat).map (fun i => i + s0) := by
  have htr : (explain env fgs X y its vs strat s0).1 =
      (explainGo env fgs y vs strat s0 (List.range its.toNat) X [] none []).1 := by
    simp only [explain, hname, if_false]
    rcases hE : explainGo env fgs y vs strat s0 (List.range its.toNat)
      X [] none [] with ⟨evs, r⟩
    rcases r with e | ⟨shaps, cls⟩
    · rfl
    · by_cases hall : shaps.all (fun r => r.length = cls.length) = true
      · simp [hall]
      · simp [hall]
  obtain ⟨h1, h2, h3⟩ := explainGo_seeds env fgs y vs strat s0 SP FM hsp hfm
    (List.range its.toNat) X [] none []
  rw [htr, h1, h2, h3]
  simp

lemma envW_split_half (n s : ℕ) (st : Option (List ℚ)) :
    envW.split n halfW s st = Except.ok (SPW n s st) := by
  show (if halfW ≤ 0 ∨ 1 ≤ halfW then Except.error PyErr.valueError
        else Except.ok ([s % n], [(s + 1) % n])) = Except.ok (SPW n s st)
  rw [if_neg (by decide)]
  rfl

/-- Witness for the amended C1, at a concrete two-iteration run with
`seed_start = 5`. -/
theorem c1_amended_witness :
    ((explain envW fgsW XW yW 2 halfW none 5).1).filterMap genInfo =
      (List.range (2 : ℤ).toNat).map
        (fun i => (i + 5, envW.uniform (i + 5) XW.nrows)) ∧
    ((explain envW fgsW XW yW 2 halfW none 5).1).filterMap splitInfo =
      (List.range (2 : ℤ).toNat).map (fun i => (XW.nrows, halfW, i)) ∧
    ((explain envW fgsW XW yW 2 halfW none 5).1).filterMap fitSeedInfo =
      (List.range (2 : ℤ).toNat).map (fun i => i + 5) :=
  c1_amended_seed_usage envW fgsW XW yW 2 halfW none 5 SPW FMW
    envW_split_half (fun _ _ _ _ _ => rfl) (by decide)

/-- Claim C2: on a valid input (positive iteration count, reserved name
absent) with a splitter and an adapter that succeed on every call — the
adapter returning nonempty matrices with one column per feature including
the synthetic one — `explain` returns a table with exactly `iterations`
rows and exactly one column per original feature plus the synthetic
feature, in order, the synthetic column last under its reserved name. -/
theorem c2_output_shape (env : RunEnv) (fgs : Adapter) (X : DataFrame)
    (y : List ℚ) (its : ℤ) (vs : ℚ) (strat : Option (List ℚ)) (s0 : ℕ)
    (SP : ℕ → ℕ → Option (List ℚ) → List ℕ × List ℕ)
    (FM : Mat → List ℚ → Mat → List ℚ → ℕ → Mat)
    (hsp : ∀ n s st, env.split n vs s st = Except.ok (SP n s st))
    (hfm : ∀ a b c d s, fgs a b c d s = Except.ok (FM a b c d s))
    (hW : ∀ a b c d s, FM a b c d s ≠ [] ∧
      ∀ row ∈ FM a b c d s, row.length = X.names.length + 1)
    (hits : 0 < its) (hname : "random_uniform_feature" ∉ X.names) :
    ∃ t, (explain env fgs X y its vs strat s0).2 = Except.ok t ∧
      t.rows.length = its.toNat ∧
      t.names = X.names ++ ["random_uniform_feature"] ∧
      t.names.length = X.names.length + 1 := by
  have hne : List.range its.toNat ≠ [] := by
    rw [Ne, List.range_eq_nil]
    omega
  obtain ⟨evs2, rows, heq, hlen, hform⟩ :=
    explainGo_ok env fgs y vs strat s0 SP FM hsp hfm
      (List.range its.toNat) X [] none [] hne
  have hnamesAfter : namesAfter X = X.names ++ ["random_uniform_feature"] := by
    simp [namesAfter, hname]
  have hall : rows.all (fun r => r.length = (namesAfter X).length) = true := by
    rw [List.all_eq_true]
    intro r hr
    obtain ⟨a, b, c, d, s, hrEq⟩ := hform r hr
    obtain ⟨hne2, hw⟩ := hW a b c d s
    obtain ⟨r0, t0, hcons⟩ := List.exists_cons_of_ne_nil hne2
    have hrl : r.length = X.names.length + 1 := by
      rw [hrEq, List.length_map, hcons, List.map_cons, colMean_length,
        List.length_map]
      exact hw r0 (by rw [hcons]; exact List.mem_cons_self r0 t0)
    simp [hrl, hnamesAfter]
  refine ⟨⟨rows, namesAfter X⟩, ?_, ?_, ?_, ?_⟩
  · simp only [explain, hname, if_false]
    rw [heq]
    simp [hall]
  · simpa using hlen
  · rw [hnamesAfter]
  · rw [hnamesAfter]
    simp

lemma FM2W_contract (a : Mat) (b : List ℚ) (c : Mat) (d : List ℚ) (s : ℕ) :
    FM2W a b c d s ≠ [] ∧
    ∀ row ∈ FM2W a b c d s, row.length = XW.names.length + 1 := by
  constructor
  · show ([[0, 1]] : Mat) ≠ []
    decide
  · show ∀ row ∈ ([[0, 1]] : Mat), row.length = XW.names.length + 1
    decide

/-- Witness for C2 at a concrete one-iteration run with a constant,
contract-conforming adapter. -/
theorem c2_witness :
    ∃ t, (explain envW fgs2W XW yW 1 halfW none 0).2 = Except.ok t ∧
      t.rows.length = (1 : ℤ).toNat ∧
      t.names = XW.names ++ ["random_uniform_feature"] ∧
      t.names.length = XW.names.length + 1 :=
  c2_output_shape envW fgs2W XW yW 1 halfW none 0 SPW FM2W
    envW_split_half (fun _ _ _ _ _ => rfl)
    FM2W_contract (by decide) (by decide)

/-- Claim C5: under explicit object-store semantics, a run never mutates the
caller's DataFrame object: whether the run returns a table or fails, the
object at the caller's reference is unchanged, and in particular it carries
no synthetic-feature column if it had none before the call. -/
theorem c5_caller_frame_preserved (env : RunEnv) (fgs : Adapter)
    (store : List DataFrame) (xref : ℕ) (y : List ℚ) (its : ℤ) (vs : ℚ)
    (strat : Option (List ℚ)) (s0 : ℕ) (hx : xref < store.length) :
    ((explainMut env fgs store xref y its vs strat s0).1).get? xref =
      store.get? xref ∧
    ("random_uniform_feature" ∉ (store.getD xref default).names →
      "random_uniform_feature" ∉
        (((explainMut env fgs store xref y its vs strat s0).1).getD xref
          default).names) := by
  have hmain : ((explainMut env fgs store xref y its vs strat s0).1).get? xref =
      store.get? xref := by
    by_cases hmem :
        "random_uniform_feature" ∈ (store.getD xref default).names
    · simp only [explainMut, hmem, if_true]
    · simp only [explainMut, hmem, if_false]
      have hpres := explainGoMut_preserve env fgs y vs strat s0
        (List.range its.toNat) (store ++ [store.getD xref default])
        store.length [] none xref (by omega)
      have happ : (store ++ [store.getD xref default]).get? xref =
          store.get? xref := List.get?_append hx
      rcases hE : explainGoMut env fgs y vs strat s0 (List.range its.toNat)
        (store ++ [store.getD xref default]) store.length [] none
        with ⟨st2, r⟩
      rw [hE] at hpres
      rcases r with e | ⟨shaps, cls⟩
      · exact hpres.trans happ
      · by_cases hall : shaps.all (fun r => r.length = cls.length) = true
        · simpa [hall] using hpres.trans happ
        · simpa [hall] using hpres.trans happ
  refine ⟨hmain, fun h => ?_⟩
  rw [List.getD_eq_getElem?_getD, ← List.get?_eq_getElem?, hmain,
    List.get?_eq_getElem?, ← List.getD_eq_getElem?_getD]
  exact h

/-- Witness for C5 at a concrete store holding the caller's frame. -/
theorem c5_witness :
    ((explainMut envW fgsW [XW] 0 yW 1 halfW none 0).1).get? 0 =
      [XW].get? 0 ∧
    ("random_uniform_feature" ∉ ([XW].getD 0 default).names →
      "random_uniform_feature" ∉
        (((explainMut envW fgsW [XW] 0 yW 1 halfW none 0).1).getD 0
          default).names) :=
  c5_caller_frame_preserved envW fgsW [XW] 0 yW 1 halfW none 0 (by decide)

/-- Claim C6: whenever a run succeeds, every entry of the returned table is
non-negative (given that the float32 cast preserves non-negativity, as IEEE
rounding does), and every row is the float32-cast column-wise mean of the
element-wise absolute values of some attribution matrix returned by the
adapter during the run. -/
theorem c6_importance_values (env : RunEnv) (fgs : Adapter) (X : DataFrame)
    (y : List ℚ) (its : ℤ) (vs : ℚ) (strat : Option (List ℚ)) (s0 : ℕ)
    (t : ImpTable) (hF : ∀ q : ℚ, 0 ≤ q → 0 ≤ env.toFloat32 q)
    (hok : (explain env fgs X y its vs strat s0).2 = Except.ok t) :
    ∀ r ∈ t.rows, (∀ x ∈ r, 0 ≤ x) ∧
      ∃ m : Mat, r = (colMean (m.map (List.map abs))).map env.toFloat32 := by
  by_cases hname : "random_uniform_feature" ∈ X.names
  · simp [explain, hname] at hok
  · rcases hE : explainGo env fgs y vs strat s0 (List.range its.toNat)
      X [] none [] with ⟨evs, r⟩
    simp only [explain, hname, if_false] at hok
    rw [hE] at hok
    rcases r with e | ⟨shaps, cls⟩
    · simp at hok
    · by_cases hall : shaps.all (fun r => r.length = cls.length) = true
      · simp only [hall, if_true] at hok
        have hok2 : ImpTable.mk shaps cls = t := by
          injection hok
        have hrows : t.rows = shaps := by
          rw [← hok2]
        have hform := explainGo_rows env fgs y vs strat s0
          (List.range its.toNat) X [] none [] evs shaps cls hE
          (fun r hr => absurd hr (List.not_mem_nil r))
        intro r hr
        rw [hrows] at hr
        obtain ⟨m, hm⟩ := hform r hr
        refine ⟨?_, ⟨m, hm⟩⟩
        intro x hxm
        rw [hm] at hxm
        obtain ⟨q, hq, rfl⟩ := List.mem_map.mp hxm
        exact hF q (colMean_abs_nonneg m q hq)
      · simp [hall] at hok

lemma getD_mem_of_lt {α : Type} (l : List α) (n : ℕ) (d : α)
    (h : n < l.length) : l.getD n d ∈ l := by
  rw [List.getD_eq_getElem l d h]
  exact List.getElem_mem h

/-- Witness for C6 at the table of a concrete successful run: the first
row's last entry is non-negative, and the first row has the
mean-of-absolute-attributions form. -/
theorem c6_witness :
    0 ≤ (tW.rows.getD 0 []).getD 1 0 ∧
    ∃ m : Mat, tW.rows.getD 0 [] =
      (colMean (m.map (List.map abs))).map envW.toFloat32 :=
  have h := c6_importance_values envW fgs2W XW yW 1 halfW none 0 tW
    (fun _ hq => hq) rfl (tW.rows.getD 0 [])
    (getD_mem_of_lt tW.rows 0 [] (by decide))
  ⟨h.1 ((tW.rows.getD 0 []).getD 1 0)
    (getD_mem_of_lt (tW.rows.getD 0 []) 1 0 (by decide)), h.2⟩
